import Mathlib

/-!
Verification development for the output-reconciliation layer of
linux-wallpaperengine (X11Output.cpp and GLFWOpenGLDriver.cpp).

The definitions below are a shallow embedding of the source:
pure functions mirror the C++ control flow, X server calls are
modelled as emitted actions, and machine integers are modelled as
`Int`/`Nat` (the quantities involved are screen coordinates and
sizes, far from any overflow boundary exercised here).
-/

set_option autoImplicit false

namespace WallpaperEngine

/-- One connected, active RandR output as observed by `loadScreenInfo`
(`XRRGetOutputInfo`/`XRRGetCrtcInfo` results after the two `continue`
filters): CRTC position `x, y` (signed) and size `w, h` (unsigned). -/
structure Screen where
  name : String
  x : Int
  y : Int
  w : Nat
  h : Nat
deriving DecidableEq, Repr

/-- One entry of `m_viewports`: a `GLFWOutputViewport`'s rectangle
(`viewport.x/y/z/w` in the source — position plus size). -/
structure OutputViewport where
  name : String
  x : Int
  y : Int
  w : Nat
  h : Nat
deriving DecidableEq, Repr

/-- Running bounds accumulator of `loadScreenInfo`'s first loop:
`minX/minY/maxX/maxY` once `haveRequestedBounds` is true, `none` before. -/
structure Bounds where
  minX : Int
  minY : Int
  maxX : Int
  maxY : Int
deriving DecidableEq, Repr

/-- One iteration of the bounds update in `loadScreenInfo` (lines 181–197):
first matching screen initialises the bounds, later ones take running
min of top-left corners and running max of bottom-right corners. -/
def updateBounds (acc : Option Bounds) (s : Screen) : Option Bounds :=
  match acc with
  | none => some ⟨s.x, s.y, s.x + (s.w : Int), s.y + (s.h : Int)⟩
  | some b =>
      some ⟨min b.minX s.x, min b.minY s.y,
            max b.maxX (s.x + (s.w : Int)), max b.maxY (s.y + (s.h : Int))⟩

/-- The detected screens whose name is in the requested
`screenBackgrounds` set (the membership test of lines 173–174). -/
def matchedScreens (detected : List Screen) (requested : List String) : List Screen :=
  detected.filter (fun s => requested.contains s.name)

/-- The bounds accumulated over the matching screens, in detection order. -/
def requestedBounds (detected : List Screen) (requested : List String) : Option Bounds :=
  (matchedScreens detected requested).foldl updateBounds none

/-- `m_viewports[info->name] = new GLFWOutputViewport {...}`:
`std::map` assignment, replacing an existing entry with the same name. -/
def insertViewport (m : List OutputViewport) (s : Screen) : List OutputViewport :=
  if m.any (fun v => v.name == s.name) then
    m.map (fun v => if v.name == s.name then ⟨s.name, s.x, s.y, s.w, s.h⟩ else v)
  else
    m ++ [⟨s.name, s.x, s.y, s.w, s.h⟩]

/-- The viewport map populated by `loadScreenInfo`'s first loop,
before rebasing. -/
def viewportsBeforeRebase (detected : List Screen) (requested : List String) :
    List OutputViewport :=
  (matchedScreens detected requested).foldl insertViewport []

/-- The fatal-error report of lines 216–231: the detected output names
and the requested names, logged before `sLog.exception`. -/
structure FatalNoOutputs where
  detectedNames : List String
  requestedNames : List String
deriving DecidableEq, Repr

/-- The state `loadScreenInfo` leaves behind on success: `m_screens`,
the rebased `m_viewports`, `m_rootOffsetX/Y` and `m_fullWidth/Height`. -/
structure TopologyResult where
  screens : List Screen
  viewports : List OutputViewport
  rootOffsetX : Int
  rootOffsetY : Int
  fullWidth : Int
  fullHeight : Int
deriving DecidableEq, Repr

/-- Rebasing of one viewport (lines 239–242): subtract the bounding-box
offset from its position. -/
def rebaseViewport (offX offY : Int) (v : OutputViewport) : OutputViewport :=
  { v with x := v.x - offX, y := v.y - offY }

/-- The topology-discovery part of `X11Output::loadScreenInfo`
(lines 150–251): enumerate the detected screens, filter to the requested
set while accumulating the union bounds, fail fatally when no detected
screen is requested, otherwise rebase the viewports by the bounding-box
offset (or fall back to the root size when no bounds were collected). -/
def loadScreenInfoTopology (rootW rootH : Nat) (detected : List Screen)
    (requested : List String) : Except FatalNoOutputs TopologyResult :=
  let screens := detected
  let viewports := viewportsBeforeRebase detected requested
  let bounds := requestedBounds detected requested
  let any := detected.any (fun s => requested.contains s.name)
  if !any then
    .error ⟨detected.map Screen.name, requested⟩
  else
    match bounds with
    | some b =>
        .ok ⟨screens, viewports.map (rebaseViewport b.minX b.minY),
             b.minX, b.minY, b.maxX - b.minX, b.maxY - b.minY⟩
    | none =>
        .ok ⟨screens, viewports, 0, 0, (rootW : Int), (rootH : Int)⟩

/-- The viewport built from a screen in `loadScreenInfo`'s first loop
(line 178–179). -/
def toViewport (s : Screen) : OutputViewport :=
  ⟨s.name, s.x, s.y, s.w, s.h⟩

/-- Bounds `b` cover screen `s`: `s`'s rectangle lies inside `b`. -/
def coversScreen (b : Bounds) (s : Screen) : Prop :=
  b.minX ≤ s.x ∧ b.minY ≤ s.y ∧
  s.x + (s.w : Int) ≤ b.maxX ∧ s.y + (s.h : Int) ≤ b.maxY

/-- `b` is the exact union rectangle of the screens in `l`: it covers
every screen, and each of its four edges is attained by some screen. -/
def isUnionBounds (b : Bounds) (l : List Screen) : Prop :=
  (∀ s ∈ l, coversScreen b s) ∧
  (∃ s ∈ l, s.x = b.minX) ∧ (∃ s ∈ l, s.y = b.minY) ∧
  (∃ s ∈ l, s.x + (s.w : Int) = b.maxX) ∧ (∃ s ∈ l, s.y + (s.h : Int) = b.maxY)

/-- The presentation-surface allocation performed by `loadScreenInfo`
after topology discovery: the depth-24 pixmap creation (line 279 — sized
to `m_rootWidth × m_rootHeight`), the GC bound to it (line 280), the
pixel buffer and its byte size (lines 411–412 — sized to
`m_fullWidth * m_fullHeight * 4`), and the image descriptor wrapping that
buffer (lines 414–415 — bounding-box dimensions, `bitmap_pad` 32). -/
structure SurfaceAlloc where
  pixmapW : Int
  pixmapH : Int
  pixmapDepth : Nat
  gcBoundToPixmap : Bool
  imageSize : Int
  imageW : Int
  imageH : Int
  imagePad : Nat
deriving DecidableEq, Repr

/-- `XCreatePixmap`/`XCreateGC`/`new char[...]`/`XCreateImage` calls of
`loadScreenInfo`, as the shapes of the allocated objects. -/
def allocateSurface (rootW rootH fullW fullH : Int) : SurfaceAlloc :=
  { pixmapW := rootW
    pixmapH := rootH
    pixmapDepth := 24
    gcBoundToPixmap := true
    imageSize := fullW * fullH * 4
    imageW := fullW
    imageH := fullH
    imagePad := 32 }

/-- `loadScreenInfo` as far as surface allocation: topology discovery
followed by `allocateSurface`, which receives the root dimensions for the
pixmap and the bounding-box dimensions for the buffer and image. -/
def loadScreenInfoSurface (rootW rootH : Nat) (detected : List Screen)
    (requested : List String) : Except FatalNoOutputs SurfaceAlloc :=
  (loadScreenInfoTopology rootW rootH detected requested).map
    (fun r => allocateSurface (rootW : Int) (rootH : Int) r.fullWidth r.fullHeight)

/-- Result of the per-frame framebuffer readback section of
`GLFWOpenGLDriver::dispatchEventQueue` (lines 226–271): the clipped
readback size, whether the buffer was zero-filled (`memset`), whether a
GPU pixel readback was issued, the `GL_PACK_ROW_LENGTH` in effect during
the readback, and the resulting image-buffer contents, indexed as
(column, row) pixels at a row stride of `fullWidth`. -/
structure FrameReadback where
  readW : Int
  readH : Int
  didMemset : Bool
  didReadback : Bool
  packRowLengthDuringRead : Option Int
  buffer : Int → Int → Int

/-- The readback step of `dispatchEventQueue`: clip the region to
`min(framebufferSize, box size)`; when the clipped region is non-empty,
zero-fill the whole buffer if the region differs from the full box, set
`GL_PACK_ROW_LENGTH` to `fullWidth` and read the framebuffer rows into
the buffer; otherwise leave the buffer untouched. `fb c r` is the GPU
framebuffer pixel at column `c` of row `r`, `buf` the previous buffer. -/
def frameReadback (fbW fbH fullW fullH : Int) (fb : Int → Int → Int)
    (buf : Int → Int → Int) : FrameReadback :=
  let readW := min fbW fullW
  let readH := min fbH fullH
  if readW > 0 ∧ readH > 0 then
    let mismatch := readW ≠ fullW ∨ readH ≠ fullH
    let base : Int → Int → Int := if mismatch then (fun _ _ => 0) else buf
    { readW := readW
      readH := readH
      didMemset := decide mismatch
      didReadback := true
      packRowLengthDuringRead := some fullW
      buffer := fun c r =>
        if 0 ≤ c ∧ c < readW ∧ 0 ≤ r ∧ r < readH then fb c r else base c r }
  else
    { readW := readW
      readH := readH
      didMemset := false
      didReadback := false
      packRowLengthDuringRead := none
      buffer := buf }

/-- An X server call issued by the presentation code, at the granularity
relevant to root-background publication: pixel-data writes (`XPutImage`),
root-pixmap property writes (`XChangeProperty`), the root-background
assignment (`XSetWindowBackgroundPixmap`), the damage hint (`XClearArea`)
and `XFlush`. -/
inductive XOp where
  | putImageWindow (window : Nat) (srcX srcY : Int) (w h : Int)
  | putImagePixmap (pixmap : Nat) (dstX dstY : Int) (w h : Int)
  | changeProperty (prop : String) (pixmap : Nat)
  | setWindowBackgroundPixmap (pixmap : Nat)
  | clearArea (x y : Int) (w h : Int)
  | flush
deriving DecidableEq, Repr

/-- The fields of `X11Output` that `updateRender` reads; a handle value
of `0` is the X constant `None`. -/
structure RenderState where
  usePerOutputWindows : Bool
  viewports : List OutputViewport
  windows : List (String × Nat)
  windowGCs : List (String × Nat)
  pixmap : Nat
  gc : Nat
  rootOffsetX : Int
  rootOffsetY : Int
  fullWidth : Int
  fullHeight : Int
deriving DecidableEq, Repr

/-- `std::map::find` on the name-keyed window / GC maps. -/
def lookupHandle (m : List (String × Nat)) (name : String) : Option Nat :=
  (m.find? (fun p => p.1 == name)).map Prod.snd

/-- `X11Output::updateRender` (lines 424–499) as the list of X calls it
issues each frame: with per-output windows, one `XPutImage` per viewport
whose window and GC are both present, then (when the shared pixmap and GC
exist) the root-pixmap refresh and the two property writes, then a flush;
without them, the shared-pixmap `XPutImage`, the two property writes, the
bounding-box `XClearArea` damage hint and a flush. -/
def updateRender (st : RenderState) : List XOp :=
  if st.usePerOutputWindows then
    (st.viewports.filterMap (fun v =>
      match lookupHandle st.windows v.name, lookupHandle st.windowGCs v.name with
      | some w, some _ => some (XOp.putImageWindow w v.x v.y (v.w : Int) (v.h : Int))
      | _, _ => none)) ++
    (if st.pixmap ≠ 0 ∧ st.gc ≠ 0 then
      [XOp.putImagePixmap st.pixmap st.rootOffsetX st.rootOffsetY
         st.fullWidth st.fullHeight,
       XOp.changeProperty "_XROOTPMAP_ID" st.pixmap,
       XOp.changeProperty "ESETROOT_PMAP_ID" st.pixmap]
     else []) ++ [XOp.flush]
  else
    [XOp.putImagePixmap st.pixmap st.rootOffsetX st.rootOffsetY
       st.fullWidth st.fullHeight,
     XOp.changeProperty "_XROOTPMAP_ID" st.pixmap,
     XOp.changeProperty "ESETROOT_PMAP_ID" st.pixmap,
     XOp.clearArea st.rootOffsetX st.rootOffsetY st.fullWidth st.fullHeight,
     XOp.flush]

/-- The root-background publication performed once by `loadScreenInfo`
(lines 344–352): set the root window's background pixmap, then write the
two root-pixmap properties. -/
def publishOps (pixmap : Nat) : List XOp :=
  [XOp.setWindowBackgroundPixmap pixmap,
   XOp.changeProperty "_XROOTPMAP_ID" pixmap,
   XOp.changeProperty "ESETROOT_PMAP_ID" pixmap]

/-- Is this call a root-background assignment? -/
def isSetBackground : XOp → Bool
  | XOp.setWindowBackgroundPixmap _ => true
  | _ => false

/-- Is this call a write of `_XROOTPMAP_ID` or `ESETROOT_PMAP_ID`? -/
def isRootPixmapPropertyWrite : XOp → Bool
  | XOp.changeProperty p _ => p == "_XROOTPMAP_ID" || p == "ESETROOT_PMAP_ID"
  | _ => false

/-- One resource-release call issued by `X11Output::free`, tagged with
the id of the resource it destroys. -/
inductive FreeAction where
  | deleteViewport (id : Nat)
  | freeWindowGC (id : Nat)
  | destroyWindow (id : Nat)
  | destroyImage (id : Nat)
  | freeSharedGC (id : Nat)
  | freePixmap (id : Nat)
  | deleteImageData (id : Nat)
  | closeDisplay (id : Nat)
deriving DecidableEq, Repr

/-- The owned handles of `X11Output` as `free` sees them: the viewport /
window / window-GC collections and the scalar handles. `none` models a
null pointer or the X constant `None`; resources carry abstract ids so a
repeated release of the same resource is visible. -/
structure X11Resources where
  viewports : List Nat
  windowGCs : List (String × Option Nat)
  windows : List (String × Option Nat)
  display : Option Nat
  image : Option Nat
  gc : Option Nat
  pixmap : Option Nat
  imageData : Option Nat
deriving DecidableEq, Repr

/-- The release of one optional handle: a single call when the handle is
non-null, nothing when it is null. -/
def optAct (f : Nat → FreeAction) : Option Nat → List FreeAction
  | some i => [f i]
  | none => []

/-- The release of one optional handle that additionally requires the
display connection to be open (`m_display != nullptr && handle != None`). -/
def guardedAct (f : Nat → FreeAction) (o : Option Nat) :
    Option Nat → List FreeAction
  | some _ => optAct f o
  | none => []

/-- The per-output teardown of `free` (lines 74–84): with an open
display, free each non-null per-output GC, then destroy each non-null
per-output window. -/
def windowLayerActs (windowGCs windows : List (String × Option Nat)) :
    Option Nat → List FreeAction
  | some _ =>
      (windowGCs.filterMap (fun p => p.2.map FreeAction.freeWindowGC)) ++
      (windows.filterMap (fun p => p.2.map FreeAction.destroyWindow))
  | none => []

/-- `X11Output::free` (lines 67–103): delete the viewports and clear the
map; when the display is open, free each non-null per-output GC and then
destroy each non-null per-output window, clearing both maps; destroy the
image when non-null; free the shared GC and the pixmap when the display
is open and they are non-null; `delete []` the pixel buffer; close the
display when open. The source nulls none of the scalar handles
afterwards, so they stay in the returned state. -/
def freeResources (s : X11Resources) : X11Resources × List FreeAction :=
  (⟨[], [], [], s.display, s.image, s.gc, s.pixmap, s.imageData⟩,
   s.viewports.map FreeAction.deleteViewport ++
   windowLayerActs s.windowGCs s.windows s.display ++
   optAct FreeAction.destroyImage s.image ++
   guardedAct FreeAction.freeSharedGC s.gc s.display ++
   guardedAct FreeAction.freePixmap s.pixmap s.display ++
   optAct FreeAction.deleteImageData s.imageData ++
   optAct FreeAction.closeDisplay s.display)

/-- The teardown phase of a release call, in the order `free` issues
them: viewports, then per-output GCs and windows, then image, shared GC,
pixmap, pixel buffer, display connection. -/
def freePhase : FreeAction → Nat
  | .deleteViewport _ => 0
  | .freeWindowGC _ => 1
  | .destroyWindow _ => 2
  | .destroyImage _ => 3
  | .freeSharedGC _ => 4
  | .freePixmap _ => 5
  | .deleteImageData _ => 6
  | .closeDisplay _ => 7

/-- One joint observation of the framebuffer and toolkit-window sizes
(`getFramebufferSize` + `glfwGetWindowSize`, read after each
`glfwPollEvents` round and at the final check). -/
structure Obs where
  fbW : Int
  fbH : Int
  winW : Int
  winH : Int
deriving DecidableEq, Repr

/-- The convergence test of `ensureFramebufferSize` (lines 150, 165,
184): framebuffer and window both report the requested size. -/
def obsConverged (o : Obs) (w h : Int) : Bool :=
  o.fbW == w && o.fbH == h && o.winW == w && o.winH == h

/-- Outcome of one bounded poll loop: rounds executed, next observation
index, and whether a round converged. -/
structure PollResult where
  rounds : Nat
  next : Nat
  converged : Bool
deriving DecidableEq, Repr

/-- One bounded poll loop of `ensureFramebufferSize` (lines 143–152 and
158–167): up to `fuel` rounds, each processing pending events and then
reading observation `env i`, stopping at the first converged round. -/
def pollRounds (env : Nat → Obs) (w h : Int) : Nat → Nat → PollResult
  | start, 0 => ⟨0, start, false⟩
  | start, fuel + 1 =>
      if obsConverged (env start) w h then ⟨1, start + 1, true⟩
      else
        let r := pollRounds env w h (start + 1) fuel
        ⟨r.rounds + 1, r.next, r.converged⟩

/-- The trace of one `GLFWOpenGLDriver::ensureFramebufferSize` call
(lines 127–192): how many `glfwPollEvents` calls ran, whether the
fallback ran (window moved off-screen, shown, then hidden again; direct
`XResizeWindow` + synchronous `XSync` when the X11 display and window are
available), the final size-check observation, and the mismatch warning
(requested and observed sizes) emitted exactly when that final check
fails. -/
structure EfsTrace where
  pollCount : Nat
  movedOffscreen : Bool
  shown : Bool
  hidden : Bool
  directResize : Bool
  finalObs : Obs
  warning : Option (Int × Int × Obs)
deriving DecidableEq, Repr

/-- `GLFWOpenGLDriver::ensureFramebufferSize`: request the resize, then
poll up to 4 rounds (observations `env 1 .. env 4`; `env 0` is the
initial pre-resize read of lines 135–138, logged only), returning at the
first converged round; otherwise move the window off-screen, show it,
poll up to 4 more rounds, hide it, issue the direct X resize with an
extra event-processing step when X11 is available, and re-check once,
warning (non-fatally) when the final observation still mismatches. -/
def ensureFramebufferSize (hasX11 : Bool) (w h : Int) (env : Nat → Obs) :
    EfsTrace :=
  let r1 := pollRounds env w h 1 4
  if r1.converged then
    ⟨r1.rounds, false, false, false, false, env (r1.next - 1), none⟩
  else
    let r2 := pollRounds env w h r1.next 4
    let final := env r2.next
    ⟨r1.rounds + r2.rounds + (if hasX11 then 1 else 0), true, true, true, hasX11,
     final,
     if obsConverged final w h then none else some (w, h, final)⟩

/-- A fault class reported by the display connection: a non-fatal
protocol error (`XErrorEvent`) or a fatal I/O/disconnection error. -/
inductive XFault where
  | protocolError
  | ioError
deriving DecidableEq, Repr

/-- The environment a (re)load runs against: the root size and the
screens the server reports at discovery time. -/
structure DisplayEnv where
  rootW : Nat
  rootH : Nat
  detected : List Screen
deriving DecidableEq, Repr

/-- Outcome of dispatching one fault through the installed handlers: the
resources released, the re-discovered topology when a reload ran, whether
a diagnostic was logged, and whether the process terminates. -/
structure FaultOutcome where
  released : List FreeAction
  topology : Option (Except FatalNoOutputs TopologyResult)
  logged : Bool
  terminated : Bool

/-- `X11Output::reset` (lines 57–65): `free` everything currently owned,
then re-run `loadScreenInfo` against the same requested-output
configuration; a fatal no-outputs result from the reload raises, which
terminates the process. -/
def resetOutput (envd : DisplayEnv) (requested : List String)
    (res : X11Resources) : FaultOutcome :=
  match loadScreenInfoTopology envd.rootW envd.rootH envd.detected requested with
  | .ok r => ⟨(freeResources res).2, some (.ok r), true, false⟩
  | .error e => ⟨(freeResources res).2, some (.error e), true, true⟩

/-- The installed handlers (lines 17–36, 47–48, 128–130):
`CustomXErrorHandler` logs a protocol error and returns 0, suppressing
the default terminate-on-error behaviour; `CustomXIOErrorExitHandler`
(installed via `XSetIOErrorExitHandler`) logs and invokes
`X11Output::reset` on a fatal I/O error. -/
def handleFault (fault : XFault) (envd : DisplayEnv) (requested : List String)
    (res : X11Resources) : FaultOutcome :=
  match fault with
  | .protocolError => ⟨[], none, true, false⟩
  | .ioError => resetOutput envd requested res

theorem foldl_updateBounds_some (l : List Screen) (b : Bounds) :
    ∃ b', l.foldl updateBounds (some b) = some b' ∧
      b'.minX ≤ b.minX ∧ b'.minY ≤ b.minY ∧ b.maxX ≤ b'.maxX ∧ b.maxY ≤ b'.maxY := by
  induction l generalizing b with
  | nil => exact ⟨b, rfl, le_refl _, le_refl _, le_refl _, le_refl _⟩
  | cons s t ih =>
      obtain ⟨b', h, h1, h2, h3, h4⟩ :=
        ih ⟨min b.minX s.x, min b.minY s.y,
            max b.maxX (s.x + (s.w : Int)), max b.maxY (s.y + (s.h : Int))⟩
      refine ⟨b', h, ?_, ?_, ?_, ?_⟩
      · exact le_trans h1 (min_le_left _ _)
      · exact le_trans h2 (min_le_left _ _)
      · exact le_trans (le_max_left _ _) h3
      · exact le_trans (le_max_left _ _) h4

theorem coversScreen_mono {b b' : Bounds} {s : Screen}
    (hle : b'.minX ≤ b.minX ∧ b'.minY ≤ b.minY ∧ b.maxX ≤ b'.maxX ∧ b.maxY ≤ b'.maxY)
    (hc : coversScreen b s) : coversScreen b' s :=
  ⟨le_trans hle.1 hc.1, le_trans hle.2.1 hc.2.1,
   le_trans hc.2.2.1 hle.2.2.1, le_trans hc.2.2.2 hle.2.2.2⟩

theorem updateBounds_covers (acc : Option Bounds) (s : Screen) :
    ∃ b₀, updateBounds acc s = some b₀ ∧ coversScreen b₀ s := by
  cases acc with
  | none =>
      exact ⟨_, rfl, le_refl _, le_refl _, le_refl _, le_refl _⟩
  | some a =>
      exact ⟨_, rfl, min_le_right _ _, min_le_right _ _, le_max_right _ _, le_max_right _ _⟩

theorem foldl_updateBounds_covers (l : List Screen) (acc : Option Bounds) (b : Bounds)
    (h : l.foldl updateBounds acc = some b) :
    ∀ s ∈ l, coversScreen b s := by
  induction l generalizing acc with
  | nil => intro s hs; cases hs
  | cons s t ih =>
      intro u hu
      rw [List.foldl_cons] at h
      rcases List.mem_cons.mp hu with rfl | hu
      · obtain ⟨b₀, hb₀, hc⟩ := updateBounds_covers acc u
        rw [hb₀] at h
        obtain ⟨b', hb', h1, h2, h3, h4⟩ := foldl_updateBounds_some t b₀
        rw [hb'] at h
        cases h
        exact coversScreen_mono ⟨h1, h2, h3, h4⟩ hc
      · exact ih _ h u hu

theorem foldl_updateBounds_minX_attained (l : List Screen) (acc b : Bounds)
    (h : l.foldl updateBounds (some acc) = some b) :
    b.minX = acc.minX ∨ ∃ s ∈ l, b.minX = s.x := by
  induction l generalizing acc with
  | nil => cases h; exact .inl rfl
  | cons s t ih =>
      rw [List.foldl_cons] at h
      rcases ih _ h with hmin | ⟨u, hu, hux⟩
      · rcases min_cases acc.minX s.x with ⟨heq, _⟩ | ⟨heq, _⟩
        · exact .inl (hmin.trans heq)
        · exact .inr ⟨s, List.mem_cons_self s t, hmin.trans heq⟩
      · exact .inr ⟨u, List.mem_cons_of_mem s hu, hux⟩

theorem foldl_updateBounds_minY_attained (l : List Screen) (acc b : Bounds)
    (h : l.foldl updateBounds (some acc) = some b) :
    b.minY = acc.minY ∨ ∃ s ∈ l, b.minY = s.y := by
  induction l generalizing acc with
  | nil => cases h; exact .inl rfl
  | cons s t ih =>
      rw [List.foldl_cons] at h
      rcases ih _ h with hmin | ⟨u, hu, huy⟩
      · rcases min_cases acc.minY s.y with ⟨heq, _⟩ | ⟨heq, _⟩
        · exact .inl (hmin.trans heq)
        · exact .inr ⟨s, List.mem_cons_self s t, hmin.trans heq⟩
      · exact .inr ⟨u, List.mem_cons_of_mem s hu, huy⟩

theorem foldl_updateBounds_maxX_attained (l : List Screen) (acc b : Bounds)
    (h : l.foldl updateBounds (some acc) = some b) :
    b.maxX = acc.maxX ∨ ∃ s ∈ l, b.maxX = s.x + (s.w : Int) := by
  induction l generalizing acc with
  | nil => cases h; exact .inl rfl
  | cons s t ih =>
      rw [List.foldl_cons] at h
      rcases ih _ h with hmax | ⟨u, hu, hux⟩
      · rcases max_cases acc.maxX (s.x + (s.w : Int)) with ⟨heq, _⟩ | ⟨heq, _⟩
        · exact .inl (hmax.trans heq)
        · exact .inr ⟨s, List.mem_cons_self s t, hmax.trans heq⟩
      · exact .inr ⟨u, List.mem_cons_of_mem s hu, hux⟩

theorem foldl_updateBounds_maxY_attained (l : List Screen) (acc b : Bounds)
    (h : l.foldl updateBounds (some acc) = some b) :
    b.maxY = acc.maxY ∨ ∃ s ∈ l, b.maxY = s.y + (s.h : Int) := by
  induction l generalizing acc with
  | nil => cases h; exact .inl rfl
  | cons s t ih =>
      rw [List.foldl_cons] at h
      rcases ih _ h with hmax | ⟨u, hu, huy⟩
      · rcases max_cases acc.maxY (s.y + (s.h : Int)) with ⟨heq, _⟩ | ⟨heq, _⟩
        · exact .inl (hmax.trans heq)
        · exact .inr ⟨s, List.mem_cons_self s t, hmax.trans heq⟩
      · exact .inr ⟨u, List.mem_cons_of_mem s hu, huy⟩

theorem foldl_updateBounds_none_isUnion (l : List Screen) (b : Bounds)
    (h : l.foldl updateBounds none = some b) : isUnionBounds b l := by
  refine ⟨foldl_updateBounds_covers l none b h, ?_, ?_, ?_, ?_⟩ <;>
    cases l with
    | nil => cases h
    | cons s t =>
        rw [List.foldl_cons, show updateBounds none s =
          some ⟨s.x, s.y, s.x + (s.w : Int), s.y + (s.h : Int)⟩ from rfl] at h
        first
        | · rcases foldl_updateBounds_minX_attained t _ b h with heq | ⟨u, hu, hux⟩
            · exact ⟨s, List.mem_cons_self s t, heq.symm⟩
            · exact ⟨u, List.mem_cons_of_mem s hu, hux.symm⟩
        | · rcases foldl_updateBounds_minY_attained t _ b h with heq | ⟨u, hu, huy⟩
            · exact ⟨s, List.mem_cons_self s t, heq.symm⟩
            · exact ⟨u, List.mem_cons_of_mem s hu, huy.symm⟩
        | · rcases foldl_updateBounds_maxX_attained t _ b h with heq | ⟨u, hu, hux⟩
            · exact ⟨s, List.mem_cons_self s t, heq.symm⟩
            · exact ⟨u, List.mem_cons_of_mem s hu, hux.symm⟩
        | · rcases foldl_updateBounds_maxY_attained t _ b h with heq | ⟨u, hu, huy⟩
            · exact ⟨s, List.mem_cons_self s t, heq.symm⟩
            · exact ⟨u, List.mem_cons_of_mem s hu, huy.symm⟩

theorem insertViewport_of_not_mem (m : List OutputViewport) (s : Screen)
    (h : ∀ v ∈ m, v.name ≠ s.name) :
    insertViewport m s = m ++ [toViewport s] := by
  rw [insertViewport, if_neg]
  · rfl
  · simp only [List.any_eq_true, beq_iff_eq, not_exists, not_and]
    intro v hv
    exact fun heq => h v hv heq

theorem foldl_insertViewport_eq_map (l : List Screen) (m : List OutputViewport)
    (hdisj : ∀ s ∈ l, ∀ v ∈ m, v.name ≠ s.name)
    (hnd : (l.map Screen.name).Nodup) :
    l.foldl insertViewport m = m ++ l.map toViewport := by
  induction l generalizing m with
  | nil => simp
  | cons s t ih =>
      rw [List.foldl_cons,
        insertViewport_of_not_mem m s (hdisj s (List.mem_cons_self s t)),
        ih (m ++ [toViewport s]) ?_ ?_]
      · simp
      · intro u hu v hv
        rcases List.mem_append.mp hv with hv | hv
        · exact hdisj u (List.mem_cons_of_mem s hu) v hv
        · have hv' : v = toViewport s := by simpa using hv
          subst hv'
          have hnd' : (∀ x ∈ t, ¬x.name = s.name) ∧ (t.map Screen.name).Nodup := by
            simpa using hnd
          intro heq
          exact hnd'.1 u hu heq.symm
      · have hnd' : (∀ x ∈ t, ¬x.name = s.name) ∧ (t.map Screen.name).Nodup := by
          simpa using hnd
        exact hnd'.2

theorem viewportsBeforeRebase_eq_map (detected : List Screen) (requested : List String)
    (hnd : (detected.map Screen.name).Nodup) :
    viewportsBeforeRebase detected requested =
      (matchedScreens detected requested).map toViewport := by
  have hsub : (matchedScreens detected requested).map Screen.name |>.Sublist
      (detected.map Screen.name) :=
    (List.filter_sublist detected).map Screen.name
  rw [viewportsBeforeRebase,
    foldl_insertViewport_eq_map _ [] (by intro s _ v hv; cases hv) (hnd.sublist hsub)]
  simp

theorem loadScreenInfoTopology_ok (rootW rootH : Nat) (detected : List Screen)
    (requested : List String) (r : TopologyResult)
    (hok : loadScreenInfoTopology rootW rootH detected requested = .ok r) :
    ∃ b, requestedBounds detected requested = some b ∧
      isUnionBounds b (matchedScreens detected requested) ∧
      r = ⟨detected,
           (viewportsBeforeRebase detected requested).map (rebaseViewport b.minX b.minY),
           b.minX, b.minY, b.maxX - b.minX, b.maxY - b.minY⟩ := by
  rw [loadScreenInfoTopology] at hok
  by_cases hany : detected.any (fun s => requested.contains s.name) = true
  · rw [hany] at hok
    simp only [Bool.not_true, Bool.false_eq_true, if_false] at hok
    have hne : matchedScreens detected requested ≠ [] := by
      obtain ⟨s, hs, hps⟩ := List.any_eq_true.mp hany
      intro hnil
      have : s ∈ matchedScreens detected requested := List.mem_filter.mpr ⟨hs, hps⟩
      rw [hnil] at this
      cases this
    obtain ⟨s, t, hcons⟩ := List.exists_cons_of_ne_nil hne
    have hsome : ∃ b, requestedBounds detected requested = some b := by
      rw [requestedBounds, hcons, List.foldl_cons,
        show updateBounds none s =
          some ⟨s.x, s.y, s.x + (s.w : Int), s.y + (s.h : Int)⟩ from rfl]
      obtain ⟨b', hb', -⟩ := foldl_updateBounds_some t
        ⟨s.x, s.y, s.x + (s.w : Int), s.y + (s.h : Int)⟩
      exact ⟨b', hb'⟩
    obtain ⟨b, hb⟩ := hsome
    rw [hb] at hok
    refine ⟨b, hb, ?_, ?_⟩
    · exact foldl_updateBounds_none_isUnion _ b hb
    · cases hok
      rfl
  · rw [Bool.not_eq_true] at hany
    rw [hany] at hok
    simp at hok

/-- C1: for every set of active viewports discovered by `loadScreenInfo`
(detected output names being distinct), the computed bounding box
`{rootOffsetX, rootOffsetY, fullWidth, fullHeight}` is the exact union
rectangle of the matching screens' extents (running min of top-left
corners, running max of bottom-right corners over the active set only),
and after rebasing each active viewport by subtracting the offset, every
active viewport satisfies `0 ≤ x`, `0 ≤ y`, `x + width ≤ fullWidth` and
`y + height ≤ fullHeight`. -/
theorem loadScreenInfo_boundingBox_union_and_viewports_within
    (rootW rootH : Nat) (detected : List Screen) (requested : List String)
    (r : TopologyResult)
    (hnd : (detected.map Screen.name).Nodup)
    (hok : loadScreenInfoTopology rootW rootH detected requested = .ok r) :
    isUnionBounds ⟨r.rootOffsetX, r.rootOffsetY,
                   r.rootOffsetX + r.fullWidth, r.rootOffsetY + r.fullHeight⟩
      (matchedScreens detected requested) ∧
    ∀ v ∈ r.viewports,
      0 ≤ v.x ∧ 0 ≤ v.y ∧ v.x + (v.w : Int) ≤ r.fullWidth ∧
        v.y + (v.h : Int) ≤ r.fullHeight := by
  obtain ⟨b, hb, hunion, hr⟩ := loadScreenInfoTopology_ok rootW rootH detected requested r hok
  subst hr
  constructor
  · have hbox : (⟨b.minX, b.minY, b.minX + (b.maxX - b.minX),
        b.minY + (b.maxY - b.minY)⟩ : Bounds) = b := by
      cases b
      simp only [Bounds.mk.injEq]
      refine ⟨trivial, trivial, by omega, by omega⟩
    show isUnionBounds ⟨b.minX, b.minY, b.minX + (b.maxX - b.minX),
      b.minY + (b.maxY - b.minY)⟩ (matchedScreens detected requested)
    rw [hbox]
    exact hunion
  · intro v hv
    show 0 ≤ v.x ∧ 0 ≤ v.y ∧ v.x + (v.w : Int) ≤ b.maxX - b.minX ∧
      v.y + (v.h : Int) ≤ b.maxY - b.minY
    rw [viewportsBeforeRebase_eq_map detected requested hnd, List.map_map] at hv
    obtain ⟨s, hs, rfl⟩ := List.mem_map.mp hv
    obtain ⟨h1, h2, h3, h4⟩ := hunion.1 s hs
    refine ⟨?_, ?_, ?_, ?_⟩ <;>
      simp [rebaseViewport, toViewport] <;> omega

/-- Concrete instantiation of `loadScreenInfo_boundingBox_union_and_viewports_within`
on the two-output scenario. -/
theorem loadScreenInfo_boundingBox_union_and_viewports_within_witness :
    ((([⟨"DP-1", 0, 0, 1920, 1080⟩, ⟨"HDMI-1", 1920, 0, 1280, 1024⟩] :
        List Screen).map Screen.name).Nodup) ∧
    (loadScreenInfoTopology 3200 1080
        [⟨"DP-1", 0, 0, 1920, 1080⟩, ⟨"HDMI-1", 1920, 0, 1280, 1024⟩]
        ["DP-1", "HDMI-1"] =
      .ok ⟨[⟨"DP-1", 0, 0, 1920, 1080⟩, ⟨"HDMI-1", 1920, 0, 1280, 1024⟩],
           [⟨"DP-1", 0, 0, 1920, 1080⟩, ⟨"HDMI-1", 1920, 0, 1280, 1024⟩],
           0, 0, 3200, 1080⟩) ∧
    (isUnionBounds ⟨0, 0, 0 + 3200, 0 + 1080⟩
        (matchedScreens
          [⟨"DP-1", 0, 0, 1920, 1080⟩, ⟨"HDMI-1", 1920, 0, 1280, 1024⟩]
          ["DP-1", "HDMI-1"]) ∧
      ∀ v ∈ ([⟨"DP-1", 0, 0, 1920, 1080⟩, ⟨"HDMI-1", 1920, 0, 1280, 1024⟩] :
          List OutputViewport),
        0 ≤ v.x ∧ 0 ≤ v.y ∧ v.x + (v.w : Int) ≤ 3200 ∧ v.y + (v.h : Int) ≤ 1080) :=
  ⟨by decide, rfl,
    loadScreenInfo_boundingBox_union_and_viewports_within 3200 1080
      [⟨"DP-1", 0, 0, 1920, 1080⟩, ⟨"HDMI-1", 1920, 0, 1280, 1024⟩]
      ["DP-1", "HDMI-1"]
      ⟨[⟨"DP-1", 0, 0, 1920, 1080⟩, ⟨"HDMI-1", 1920, 0, 1280, 1024⟩],
       [⟨"DP-1", 0, 0, 1920, 1080⟩, ⟨"HDMI-1", 1920, 0, 1280, 1024⟩],
       0, 0, 3200, 1080⟩
      (by decide) rfl⟩

/-- C5 counterexample: with one detected 1920×1080 output and an empty
requested-output set, `loadScreenInfo` raises the fatal no-outputs error
instead of completing with the full-virtual-display bounding box. -/
theorem loadScreenInfo_emptyRequest_counterexample :
    loadScreenInfoTopology 1920 1080 [⟨"DP-1", 0, 0, 1920, 1080⟩] [] =
      .error ⟨["DP-1"], []⟩ := rfl

/-- C5 (amended): an empty requested-output set always takes the fatal
no-outputs path of `loadScreenInfo`, reporting the detected names and the
empty requested list; the full-virtual-display zero-offset fallback
branch is not reached. -/
theorem loadScreenInfo_emptyRequest_fatal (rootW rootH : Nat) (detected : List Screen) :
    loadScreenInfoTopology rootW rootH detected [] =
      .error ⟨detected.map Screen.name, []⟩ := by
  have h : detected.any (fun s => ([] : List String).contains s.name) = false := by
    induction detected with
    | nil => rfl
    | cons s t ih => simp
  simp only [loadScreenInfoTopology, h, Bool.not_false, if_true]

/-- C6: when none of the requested output names matches a detected output
name, `loadScreenInfo` fails fatally and the report carries the full list
of detected output names and the full list of requested names. -/
theorem loadScreenInfo_noMatch_fatal (rootW rootH : Nat) (detected : List Screen)
    (requested : List String)
    (h : ∀ s ∈ detected, ¬ s.name ∈ requested) :
    loadScreenInfoTopology rootW rootH detected requested =
      .error ⟨detected.map Screen.name, requested⟩ := by
  have hany : detected.any (fun s => requested.contains s.name) = false := by
    rw [Bool.eq_false_iff]
    intro hc
    obtain ⟨s, hs, hps⟩ := List.any_eq_true.mp hc
    exact h s hs (by simpa using hps)
  simp only [loadScreenInfoTopology, hany, Bool.not_false, if_true]

/-- Concrete instantiation of `loadScreenInfo_noMatch_fatal`: requesting
"HDMI-1" when only "DP-1" is detected. -/
theorem loadScreenInfo_noMatch_fatal_witness :
    (∀ s ∈ ([⟨"DP-1", 0, 0, 1920, 1080⟩] : List Screen), ¬ s.name ∈ ["HDMI-1"]) ∧
    loadScreenInfoTopology 1920 1080 [⟨"DP-1", 0, 0, 1920, 1080⟩] ["HDMI-1"] =
      .error ⟨["DP-1"], ["HDMI-1"]⟩ :=
  ⟨by decide,
    loadScreenInfo_noMatch_fatal 1920 1080 [⟨"DP-1", 0, 0, 1920, 1080⟩] ["HDMI-1"]
      (by decide)⟩

/-- C2 counterexample: on a 3840×1080 virtual display with "DP-1" at
(0,0,1920,1080) requested alone, the bounding box is 1920×1080 but the
pixmap is created at 3840×1080 — the pixmap is not sized to the bounding
box and its dimensions differ from the pixel buffer's. -/
theorem allocate_pixmap_not_box_sized_counterexample :
    loadScreenInfoSurface 3840 1080
        [⟨"DP-1", 0, 0, 1920, 1080⟩, ⟨"HDMI-1", 1920, 0, 1920, 1080⟩] ["DP-1"] =
      .ok ⟨3840, 1080, 24, true, 1920 * 1080 * 4, 1920, 1080, 32⟩ ∧
    (3840 : Int) ≠ 1920 :=
  ⟨rfl, by decide⟩

/-- C2 (amended): `loadScreenInfo` allocates a depth-24 pixmap sized to
the root (full virtual display) dimensions, a GC bound to that pixmap, a
heap buffer of exactly `boxWidth * boxHeight * 4` bytes, and an image
descriptor wrapping that buffer at 32-bit pad with the bounding-box
dimensions; the buffer and the image always share dimensions, while the
pixmap shares them only when the bounding box equals the root size. -/
theorem allocate_surface_shapes (rootW rootH : Nat) (detected : List Screen)
    (requested : List String) (a : SurfaceAlloc)
    (hok : loadScreenInfoSurface rootW rootH detected requested = .ok a) :
    a.pixmapW = (rootW : Int) ∧ a.pixmapH = (rootH : Int) ∧ a.pixmapDepth = 24 ∧
    a.gcBoundToPixmap = true ∧
    a.imageSize = a.imageW * a.imageH * 4 ∧ a.imagePad = 32 ∧
    ((a.pixmapW = a.imageW ∧ a.pixmapH = a.imageH) ↔
      (a.imageW = (rootW : Int) ∧ a.imageH = (rootH : Int))) := by
  rw [loadScreenInfoSurface] at hok
  cases htop : loadScreenInfoTopology rootW rootH detected requested with
  | error e =>
      rw [htop] at hok
      cases hok
  | ok r =>
      rw [htop] at hok
      cases hok
      refine ⟨rfl, rfl, rfl, rfl, rfl, rfl, ?_⟩
      constructor
      · exact fun ⟨h1, h2⟩ => ⟨h1.symm, h2.symm⟩
      · exact fun ⟨h1, h2⟩ => ⟨h1.symm, h2.symm⟩

/-- Concrete instantiation of `allocate_surface_shapes` on the
single-output scenario where box and root coincide. -/
theorem allocate_surface_shapes_witness :
    (loadScreenInfoSurface 1920 1080 [⟨"DP-1", 0, 0, 1920, 1080⟩] ["DP-1"] =
      .ok ⟨1920, 1080, 24, true, 1920 * 1080 * 4, 1920, 1080, 32⟩) ∧
    ((1920 : Int) = 1920 ∧ (1080 : Int) = 1080 ∧ (24 : Nat) = 24 ∧ true = true ∧
      (1920 * 1080 * 4 : Int) = 1920 * 1080 * 4 ∧ (32 : Nat) = 32 ∧
      (((1920 : Int) = 1920 ∧ (1080 : Int) = 1080) ↔
        ((1920 : Int) = 1920 ∧ (1080 : Int) = 1080))) :=
  ⟨rfl, allocate_surface_shapes 1920 1080 [⟨"DP-1", 0, 0, 1920, 1080⟩] ["DP-1"]
    ⟨1920, 1080, 24, true, 1920 * 1080 * 4, 1920, 1080, 32⟩ rfl⟩

/-- C3: for every frame, the readback region is clipped to
`min(framebufferSize, box size)`; whenever that non-empty region is
smaller than the full bounding box, the entire image buffer is
zero-filled before the readback is copied in with `GL_PACK_ROW_LENGTH`
equal to the full box width, so every pixel outside the filled region is
zero and pixels inside come from the framebuffer. -/
theorem frameReadback_partial_zeroFills_and_strides (fbW fbH fullW fullH : Int)
    (fb buf : Int → Int → Int)
    (hW : 0 < min fbW fullW) (hH : 0 < min fbH fullH)
    (hsmall : min fbW fullW < fullW ∨ min fbH fullH < fullH) :
    (frameReadback fbW fbH fullW fullH fb buf).readW = min fbW fullW ∧
    (frameReadback fbW fbH fullW fullH fb buf).readH = min fbH fullH ∧
    (frameReadback fbW fbH fullW fullH fb buf).didMemset = true ∧
    (frameReadback fbW fbH fullW fullH fb buf).didReadback = true ∧
    (frameReadback fbW fbH fullW fullH fb buf).packRowLengthDuringRead = some fullW ∧
    (∀ c r : Int,
      ¬ (0 ≤ c ∧ c < min fbW fullW ∧ 0 ≤ r ∧ r < min fbH fullH) →
        (frameReadback fbW fbH fullW fullH fb buf).buffer c r = 0) ∧
    (∀ c r : Int,
      0 ≤ c → c < min fbW fullW → 0 ≤ r → r < min fbH fullH →
        (frameReadback fbW fbH fullW fullH fb buf).buffer c r = fb c r) := by
  have hmis : min fbW fullW ≠ fullW ∨ min fbH fullH ≠ fullH := by
    rcases hsmall with h | h
    · exact .inl (ne_of_lt h)
    · exact .inr (ne_of_lt h)
  rw [frameReadback]
  rw [if_pos (show min fbW fullW > 0 ∧ min fbH fullH > 0 from ⟨hW, hH⟩)]
  simp only [if_pos hmis]
  refine ⟨trivial, trivial, decide_eq_true hmis, trivial, trivial, ?_, ?_⟩
  · intro c r hout
    simp only [if_neg hout]
  · intro c r h1 h2 h3 h4
    rw [if_pos (show (0 : Int) ≤ c ∧ c < min fbW fullW ∧ (0 : Int) ≤ r ∧
      r < min fbH fullH from ⟨h1, h2, h3, h4⟩)]

/-- Concrete instantiation of `frameReadback_partial_zeroFills_and_strides`
at a 2×3 framebuffer against a 3×3 box. -/
theorem frameReadback_partial_zeroFills_and_strides_witness :
    (0 : Int) < min 2 3 ∧ (0 : Int) < min 3 3 ∧
    (min (2 : Int) 3 < 3 ∨ min (3 : Int) 3 < 3) ∧
    ((frameReadback 2 3 3 3 (fun _ _ => 7) (fun _ _ => 5)).readW = min 2 3 ∧
     (frameReadback 2 3 3 3 (fun _ _ => 7) (fun _ _ => 5)).readH = min 3 3 ∧
     (frameReadback 2 3 3 3 (fun _ _ => 7) (fun _ _ => 5)).didMemset = true ∧
     (frameReadback 2 3 3 3 (fun _ _ => 7) (fun _ _ => 5)).didReadback = true ∧
     (frameReadback 2 3 3 3 (fun _ _ => 7) (fun _ _ => 5)).packRowLengthDuringRead =
       some 3 ∧
     (∀ c r : Int, ¬ (0 ≤ c ∧ c < min 2 3 ∧ 0 ≤ r ∧ r < min 3 3) →
       (frameReadback 2 3 3 3 (fun _ _ => 7) (fun _ _ => 5)).buffer c r = 0) ∧
     (∀ c r : Int, 0 ≤ c → c < min 2 3 → 0 ≤ r → r < min 3 3 →
       (frameReadback 2 3 3 3 (fun _ _ => 7) (fun _ _ => 5)).buffer c r = 7)) :=
  ⟨by decide, by decide, .inl (by decide),
    frameReadback_partial_zeroFills_and_strides 2 3 3 3 (fun _ _ => 7) (fun _ _ => 5)
      (by decide) (by decide) (.inl (by decide))⟩

/-- C10: when the clipped readback region `min(framebufferSize, box size)`
has a non-positive width or height, no zero-fill and no GPU readback are
performed and the image buffer is left entirely unchanged. -/
theorem frameReadback_empty_region_no_effect (fbW fbH fullW fullH : Int)
    (fb buf : Int → Int → Int)
    (h : min fbW fullW ≤ 0 ∨ min fbH fullH ≤ 0) :
    (frameReadback fbW fbH fullW fullH fb buf).didMemset = false ∧
    (frameReadback fbW fbH fullW fullH fb buf).didReadback = false ∧
    (frameReadback fbW fbH fullW fullH fb buf).buffer = buf := by
  have hneg : ¬ (min fbW fullW > 0 ∧ min fbH fullH > 0) := by
    rcases h with h | h
    · exact fun hc => absurd hc.1 (not_lt.mpr h)
    · exact fun hc => absurd hc.2 (not_lt.mpr h)
  rw [frameReadback]
  simp only [if_neg hneg]
  exact ⟨trivial, trivial, trivial⟩

/-- Concrete instantiation of `frameReadback_empty_region_no_effect` at a
zero-width framebuffer. -/
theorem frameReadback_empty_region_no_effect_witness :
    (min (0 : Int) 3 ≤ 0 ∨ min (3 : Int) 3 ≤ 0) ∧
    ((frameReadback 0 3 3 3 (fun _ _ => 7) (fun _ _ => 5)).didMemset = false ∧
     (frameReadback 0 3 3 3 (fun _ _ => 7) (fun _ _ => 5)).didReadback = false ∧
     (frameReadback 0 3 3 3 (fun _ _ => 7) (fun _ _ => 5)).buffer = fun _ _ => 5) :=
  ⟨.inl (by decide),
    frameReadback_empty_region_no_effect 0 3 3 3 (fun _ _ => 7) (fun _ _ => 5)
      (.inl (by decide))⟩

/-- C4 counterexample: a shared-pixmap-path `updateRender` frame issues
two root-pixmap property writes, contradicting "never rewrites those two
properties". -/
theorem updateRender_rewrites_properties_counterexample :
    (updateRender ⟨false, [], [], [], 7, 8, 0, 0, 100, 100⟩).countP
        isRootPixmapPropertyWrite = 2 ∧ (2 : Nat) ≠ 0 :=
  ⟨rfl, by decide⟩

/-- C4 (amended): the root background pixmap is assigned exactly once, at
setup, and `updateRender` never re-issues that assignment; but every
per-frame `updateRender` rewrites the two root-pixmap properties
(whenever the shared pixmap and GC exist), alongside the pixel-data write
and — in the shared-pixmap path — a damage hint covering exactly the
bounding-box region. -/
theorem updateRender_no_background_reset_but_property_rewrites
    (st : RenderState) :
    (publishOps st.pixmap).countP isSetBackground = 1 ∧
    (publishOps st.pixmap).countP isRootPixmapPropertyWrite = 2 ∧
    (updateRender st).countP isSetBackground = 0 ∧
    (st.usePerOutputWindows = false →
      (updateRender st).countP isRootPixmapPropertyWrite = 2 ∧
      XOp.clearArea st.rootOffsetX st.rootOffsetY st.fullWidth st.fullHeight ∈
        updateRender st) ∧
    (st.usePerOutputWindows = true → st.pixmap ≠ 0 → st.gc ≠ 0 →
      (updateRender st).countP isRootPixmapPropertyWrite = 2) := by
  have hwinP : ∀ (p : XOp → Bool), (∀ w a b c d, p (XOp.putImageWindow w a b c d) = false) →
      (st.viewports.filterMap (fun v =>
        match lookupHandle st.windows v.name, lookupHandle st.windowGCs v.name with
        | some w, some _ => some (XOp.putImageWindow w v.x v.y (v.w : Int) (v.h : Int))
        | _, _ => none)).countP p = 0 := by
    intro p hp
    rw [List.countP_eq_zero]
    intro a ha
    obtain ⟨v, hv, hmatch⟩ := List.mem_filterMap.mp ha
    cases h1 : lookupHandle st.windows v.name with
    | none => rw [h1] at hmatch; cases hmatch
    | some w =>
        cases h2 : lookupHandle st.windowGCs v.name with
        | none => rw [h1, h2] at hmatch; cases hmatch
        | some g =>
            rw [h1, h2] at hmatch
            cases hmatch
            intro hc
            rw [hp w v.x v.y (v.w : Int) (v.h : Int)] at hc
            cases hc
  refine ⟨rfl, rfl, ?_, ?_, ?_⟩
  · rw [updateRender]
    cases hm : st.usePerOutputWindows with
    | false => simp [List.countP_cons, isSetBackground]
    | true =>
        simp only [if_true]
        rw [List.countP_append, List.countP_append,
          hwinP isSetBackground (fun _ _ _ _ _ => rfl)]
        split
        · simp [List.countP_cons, isSetBackground]
        · simp [List.countP_cons, isSetBackground]
  · intro hm
    rw [updateRender, hm]
    simp only [Bool.false_eq_true, if_false]
    constructor
    · simp [List.countP_cons, isRootPixmapPropertyWrite]
    · simp
  · intro hm hpix hgc
    rw [updateRender, hm]
    simp only [if_true]
    rw [List.countP_append, List.countP_append,
      hwinP isRootPixmapPropertyWrite (fun _ _ _ _ _ => rfl),
      if_pos ⟨hpix, hgc⟩]
    simp [List.countP_cons, isRootPixmapPropertyWrite]

/-- Concrete instantiation of
`updateRender_no_background_reset_but_property_rewrites` on a
shared-pixmap-path state. -/
theorem updateRender_no_background_reset_but_property_rewrites_witness :
    ((false : Bool) = false) ∧
    ((updateRender ⟨false, [], [], [], 9, 10, 0, 0, 100, 100⟩).countP
        isRootPixmapPropertyWrite = 2 ∧
      XOp.clearArea 0 0 100 100 ∈
        updateRender ⟨false, [], [], [], 9, 10, 0, 0, 100, 100⟩) :=
  ⟨rfl,
    (updateRender_no_background_reset_but_property_rewrites
      ⟨false, [], [], [], 9, 10, 0, 0, 100, 100⟩).2.2.2.1 rfl⟩

theorem pairwise_phase_of_const {l : List FreeAction} {k : Nat}
    (h : ∀ a ∈ l, freePhase a = k) :
    l.Pairwise (fun a b => freePhase a ≤ freePhase b) := by
  induction l with
  | nil => exact List.Pairwise.nil
  | cons a t ih =>
      refine List.Pairwise.cons ?_ (ih fun b hb => h b (List.mem_cons_of_mem a hb))
      intro b hb
      rw [h a (List.mem_cons_self a t), h b (List.mem_cons_of_mem a hb)]

theorem pairwise_phase_append {l1 l2 : List FreeAction} {k : Nat}
    (h1 : ∀ a ∈ l1, freePhase a ≤ k) (h2 : ∀ b ∈ l2, k ≤ freePhase b)
    (p1 : l1.Pairwise (fun a b => freePhase a ≤ freePhase b))
    (p2 : l2.Pairwise (fun a b => freePhase a ≤ freePhase b)) :
    (l1 ++ l2).Pairwise (fun a b => freePhase a ≤ freePhase b) := by
  rw [List.pairwise_append]
  exact ⟨p1, p2, fun a ha b hb => le_trans (h1 a ha) (h2 b hb)⟩

/-- C8 counterexample: from a fully live state, a second consecutive
`free` destroys the image again (the scalar handles are not nulled by the
first `free`), so `free` is not idempotent — the same resource is freed
twice. -/
theorem free_not_idempotent_counterexample :
    FreeAction.destroyImage 2 ∈
      (freeResources ⟨[], [], [], some 1, some 2, some 3, some 4, some 5⟩).2 ∧
    FreeAction.destroyImage 2 ∈
      (freeResources
        (freeResources ⟨[], [], [], some 1, some 2, some 3, some 4, some 5⟩).1).2 := by
  decide

/-- C8 (amended): `free` releases its resources in the documented order
(per-output GCs and windows, then image, shared GC, pixmap, pixel buffer,
display connection) and tolerates null handles — it emits nothing exactly
when the viewport list is empty and the image, pixel buffer and display
are null. It is not idempotent: the scalar handles are not nulled, so a
second consecutive `free` re-frees every scalar resource that was live
(shown here for the image); idempotence holds only from a state whose
scalar handles are already null. -/
theorem free_ordered_tolerant_but_not_idempotent (s : X11Resources) :
    ((freeResources s).2).Pairwise (fun a b => freePhase a ≤ freePhase b) ∧
    ((freeResources s).2 = [] ↔
      (s.viewports = [] ∧ s.image = none ∧ s.imageData = none ∧ s.display = none)) ∧
    (∀ i : Nat, s.image = some i →
      FreeAction.destroyImage i ∈ (freeResources s).2 ∧
      FreeAction.destroyImage i ∈ (freeResources (freeResources s).1).2) := by
  have hoptPhase : ∀ (f : Nat → FreeAction) (o : Option Nat) (k : Nat),
      (∀ i, freePhase (f i) = k) → ∀ a ∈ optAct f o, freePhase a = k := by
    intro f o k hf a ha
    cases o with
    | none => cases ha
    | some i =>
        rcases List.mem_singleton.mp ha with rfl
        exact hf i
  have hguardPhase : ∀ (f : Nat → FreeAction) (o d : Option Nat) (k : Nat),
      (∀ i, freePhase (f i) = k) → ∀ a ∈ guardedAct f o d, freePhase a = k := by
    intro f o d k hf a ha
    cases d with
    | none => cases ha
    | some j => exact hoptPhase f o k hf a ha
  have hv : ∀ a ∈ s.viewports.map FreeAction.deleteViewport, freePhase a = 0 := by
    intro a ha
    obtain ⟨i, -, rfl⟩ := List.mem_map.mp ha
    rfl
  have hwgc : ∀ (gcs : List (String × Option Nat)),
      ∀ a ∈ gcs.filterMap (fun p => p.2.map FreeAction.freeWindowGC),
        freePhase a = 1 := by
    intro gcs a ha
    obtain ⟨p, -, hp⟩ := List.mem_filterMap.mp ha
    cases hg : p.2 with
    | none => rw [hg] at hp; cases hp
    | some g => rw [hg] at hp; cases hp; rfl
  have hwin : ∀ (wins : List (String × Option Nat)),
      ∀ a ∈ wins.filterMap (fun p => p.2.map FreeAction.destroyWindow),
        freePhase a = 2 := by
    intro wins a ha
    obtain ⟨p, -, hp⟩ := List.mem_filterMap.mp ha
    cases hg : p.2 with
    | none => rw [hg] at hp; cases hp
    | some g => rw [hg] at hp; cases hp; rfl
  have hw : ∀ (d : Option Nat), ∀ a ∈ windowLayerActs s.windowGCs s.windows d,
      1 ≤ freePhase a ∧ freePhase a ≤ 2 := by
    intro d a ha
    cases d with
    | none => cases ha
    | some j =>
        rw [windowLayerActs] at ha
        rcases List.mem_append.mp ha with ha | ha
        · rw [hwgc s.windowGCs a ha]; omega
        · rw [hwin s.windows a ha]; omega
  have pw : ∀ (d : Option Nat), (windowLayerActs s.windowGCs s.windows d).Pairwise
      (fun a b => freePhase a ≤ freePhase b) := by
    intro d
    cases d with
    | none => exact List.Pairwise.nil
    | some j =>
        rw [windowLayerActs]
        exact pairwise_phase_append (k := 2)
          (fun a ha => by rw [hwgc s.windowGCs a ha]; omega)
          (fun a ha => by rw [hwin s.windows a ha])
          (pairwise_phase_of_const (hwgc s.windowGCs))
          (pairwise_phase_of_const (hwin s.windows))
  have hi : ∀ a ∈ optAct FreeAction.destroyImage s.image, freePhase a = 3 :=
    hoptPhase _ _ 3 (fun _ => rfl)
  have hg : ∀ a ∈ guardedAct FreeAction.freeSharedGC s.gc s.display,
      freePhase a = 4 := hguardPhase _ _ _ 4 (fun _ => rfl)
  have hp : ∀ a ∈ guardedAct FreeAction.freePixmap s.pixmap s.display,
      freePhase a = 5 := hguardPhase _ _ _ 5 (fun _ => rfl)
  have hdt : ∀ a ∈ optAct FreeAction.deleteImageData s.imageData,
      freePhase a = 6 := hoptPhase _ _ 6 (fun _ => rfl)
  have hdisp : ∀ a ∈ optAct FreeAction.closeDisplay s.display, freePhase a = 7 :=
    hoptPhase _ _ 7 (fun _ => rfl)
  have hb2 : ∀ a ∈ s.viewports.map FreeAction.deleteViewport ++
      windowLayerActs s.windowGCs s.windows s.display, freePhase a ≤ 2 := by
    intro a ha
    rcases List.mem_append.mp ha with ha | ha
    · rw [hv a ha]; omega
    · exact (hw s.display a ha).2
  have hb3 : ∀ a ∈ s.viewports.map FreeAction.deleteViewport ++
      windowLayerActs s.windowGCs s.windows s.display ++
      optAct FreeAction.destroyImage s.image, freePhase a ≤ 3 := by
    intro a ha
    rcases List.mem_append.mp ha with ha | ha
    · exact le_trans (hb2 a ha) (by omega)
    · rw [hi a ha]
  have hb4 : ∀ a ∈ s.viewports.map FreeAction.deleteViewport ++
      windowLayerActs s.windowGCs s.windows s.display ++
      optAct FreeAction.destroyImage s.image ++
      guardedAct FreeAction.freeSharedGC s.gc s.display, freePhase a ≤ 4 := by
    intro a ha
    rcases List.mem_append.mp ha with ha | ha
    · exact le_trans (hb3 a ha) (by omega)
    · rw [hg a ha]
  have hb5 : ∀ a ∈ s.viewports.map FreeAction.deleteViewport ++
      windowLayerActs s.windowGCs s.windows s.display ++
      optAct FreeAction.destroyImage s.image ++
      guardedAct FreeAction.freeSharedGC s.gc s.display ++
      guardedAct FreeAction.freePixmap s.pixmap s.display, freePhase a ≤ 5 := by
    intro a ha
    rcases List.mem_append.mp ha with ha | ha
    · exact le_trans (hb4 a ha) (by omega)
    · rw [hp a ha]
  have hb6 : ∀ a ∈ s.viewports.map FreeAction.deleteViewport ++
      windowLayerActs s.windowGCs s.windows s.display ++
      optAct FreeAction.destroyImage s.image ++
      guardedAct FreeAction.freeSharedGC s.gc s.display ++
      guardedAct FreeAction.freePixmap s.pixmap s.display ++
      optAct FreeAction.deleteImageData s.imageData, freePhase a ≤ 6 := by
    intro a ha
    rcases List.mem_append.mp ha with ha | ha
    · exact le_trans (hb5 a ha) (by omega)
    · rw [hdt a ha]
  refine ⟨?_, ?_, ?_⟩
  · show (s.viewports.map FreeAction.deleteViewport ++
      windowLayerActs s.windowGCs s.windows s.display ++
      optAct FreeAction.destroyImage s.image ++
      guardedAct FreeAction.freeSharedGC s.gc s.display ++
      guardedAct FreeAction.freePixmap s.pixmap s.display ++
      optAct FreeAction.deleteImageData s.imageData ++
      optAct FreeAction.closeDisplay s.display).Pairwise
        (fun a b => freePhase a ≤ freePhase b)
    refine pairwise_phase_append (k := 7)
      (fun a ha => le_trans (hb6 a ha) (by omega))
      (fun a ha => by rw [hdisp a ha]) ?_ (pairwise_phase_of_const hdisp)
    refine pairwise_phase_append (k := 6)
      (fun a ha => le_trans (hb5 a ha) (by omega))
      (fun a ha => by rw [hdt a ha]) ?_ (pairwise_phase_of_const hdt)
    refine pairwise_phase_append (k := 5)
      (fun a ha => le_trans (hb4 a ha) (by omega))
      (fun a ha => by rw [hp a ha]) ?_ (pairwise_phase_of_const hp)
    refine pairwise_phase_append (k := 4)
      (fun a ha => le_trans (hb3 a ha) (by omega))
      (fun a ha => by rw [hg a ha]) ?_ (pairwise_phase_of_const hg)
    refine pairwise_phase_append (k := 3)
      (fun a ha => le_trans (hb2 a ha) (by omega))
      (fun a ha => by rw [hi a ha]) ?_ (pairwise_phase_of_const hi)
    exact pairwise_phase_append (k := 1)
      (fun a ha => by rw [hv a ha]; omega)
      (fun a ha => (hw s.display a ha).1)
      (pairwise_phase_of_const hv) (pw s.display)
  · constructor
    · intro h
      simp only [freeResources] at h
      rcases hdd : s.display with _ | d
      · rw [hdd] at h
        rcases hii : s.image with _ | i
        · rcases hdta : s.imageData with _ | dt
          · refine ⟨?_, rfl, rfl, rfl⟩
            rw [hii, hdta] at h
            simpa [optAct, guardedAct, windowLayerActs] using h
          · rw [hii, hdta] at h
            simp [optAct, guardedAct, windowLayerActs] at h
        · rw [hii] at h
          simp [optAct, guardedAct, windowLayerActs] at h
      · rw [hdd] at h
        simp [optAct, guardedAct, windowLayerActs] at h
    · rintro ⟨h1, h2, h3, h4⟩
      simp [freeResources, optAct, guardedAct, windowLayerActs, h1, h2, h3, h4]
  · intro i himg
    constructor <;> simp [freeResources, optAct, himg]

/-- Concrete instantiation of `free_ordered_tolerant_but_not_idempotent`
on a fully live state. -/
theorem free_ordered_tolerant_but_not_idempotent_witness :
    ((freeResources ⟨[6], [("DP-1", some 7)], [("DP-1", some 8)],
        some 1, some 2, some 3, some 4, some 5⟩).2).Pairwise
      (fun a b => freePhase a ≤ freePhase b) ∧
    (FreeAction.destroyImage 2 ∈
      (freeResources ⟨[6], [("DP-1", some 7)], [("DP-1", some 8)],
        some 1, some 2, some 3, some 4, some 5⟩).2 ∧
     FreeAction.destroyImage 2 ∈
      (freeResources (freeResources ⟨[6], [("DP-1", some 7)], [("DP-1", some 8)],
        some 1, some 2, some 3, some 4, some 5⟩).1).2) :=
  ⟨(free_ordered_tolerant_but_not_idempotent
      ⟨[6], [("DP-1", some 7)], [("DP-1", some 8)],
        some 1, some 2, some 3, some 4, some 5⟩).1,
   (free_ordered_tolerant_but_not_idempotent
      ⟨[6], [("DP-1", some 7)], [("DP-1", some 8)],
        some 1, some 2, some 3, some 4, some 5⟩).2.2 2 rfl⟩

theorem pollRounds_rounds_le (env : Nat → Obs) (w h : Int) (start fuel : Nat) :
    (pollRounds env w h start fuel).rounds ≤ fuel := by
  induction fuel generalizing start with
  | zero => exact le_refl 0
  | succ fuel ih =>
      rw [pollRounds]
      split
      · exact Nat.succ_le_succ (Nat.zero_le fuel)
      · exact Nat.succ_le_succ (ih (start + 1))

theorem pollRounds_converged_of_exists (env : Nat → Obs) (w h : Int)
    (start fuel : Nat)
    (hex : ∃ j, j < fuel ∧ obsConverged (env (start + j)) w h = true) :
    (pollRounds env w h start fuel).converged = true := by
  induction fuel generalizing start with
  | zero =>
      obtain ⟨j, hj, -⟩ := hex
      cases hj
  | succ fuel ih =>
      rw [pollRounds]
      split
      · rfl
      · rename_i hc0
        obtain ⟨j, hj, hcv⟩ := hex
        cases j with
        | zero => rw [Nat.add_zero] at hcv; exact absurd hcv hc0
        | succ j =>
            show (pollRounds env w h (start + 1) fuel).converged = true
            refine ih (start + 1) ⟨j, Nat.lt_of_succ_lt_succ hj, ?_⟩
            rw [show start + 1 + j = start + (j + 1) by omega]
            exact hcv

theorem pollRounds_converged_last (env : Nat → Obs) (w h : Int)
    (start fuel : Nat)
    (hcv : (pollRounds env w h start fuel).converged = true) :
    obsConverged (env ((pollRounds env w h start fuel).next - 1)) w h = true := by
  induction fuel generalizing start with
  | zero => cases hcv
  | succ fuel ih =>
      rw [pollRounds] at hcv ⊢
      split at hcv
      · rename_i hc0
        simp only [Nat.add_sub_cancel]
        split
        · simp only [Nat.add_sub_cancel]
          exact hc0
        · rename_i hne
          exact absurd hc0 hne
      · rename_i hc0
        rw [if_neg hc0]
        exact ih (start + 1) hcv

/-- C7: `ensureFramebufferSize` always terminates within its fixed
budget: at most `4 + 4 + 1 = 9` event-processing rounds regardless of
convergence; a warning is emitted iff the final size check mismatches
(so it is suppressed whenever a poll round converges the first loop, and
exactly one warning carrying the requested and the observed sizes is
produced when convergence never occurs); and the off-screen remap, show,
hide and (when X11 is available) direct-resize fallback runs exactly when
the first poll loop fails. The function returns a trace, never a fatal
error. -/
theorem ensureFramebufferSize_bounded_budget_and_warning (hasX11 : Bool)
    (w h : Int) (env : Nat → Obs) :
    (ensureFramebufferSize hasX11 w h env).pollCount ≤ 9 ∧
    ((ensureFramebufferSize hasX11 w h env).warning = none ↔
      obsConverged (ensureFramebufferSize hasX11 w h env).finalObs w h = true) ∧
    ((∃ j, j < 4 ∧ obsConverged (env (1 + j)) w h = true) →
      (ensureFramebufferSize hasX11 w h env).warning = none ∧
      (ensureFramebufferSize hasX11 w h env).movedOffscreen = false) ∧
    ((ensureFramebufferSize hasX11 w h env).movedOffscreen = true →
      (ensureFramebufferSize hasX11 w h env).shown = true ∧
      (ensureFramebufferSize hasX11 w h env).hidden = true ∧
      (ensureFramebufferSize hasX11 w h env).directResize = hasX11) ∧
    ((∀ j, obsConverged (env j) w h = false) →
      (ensureFramebufferSize hasX11 w h env).warning =
        some (w, h, (ensureFramebufferSize hasX11 w h env).finalObs)) := by
  rw [ensureFramebufferSize]
  by_cases hc : (pollRounds env w h 1 4).converged = true
  · rw [if_pos hc]
    refine ⟨?_, ?_, ?_, ?_, ?_⟩
    · exact le_trans (pollRounds_rounds_le env w h 1 4) (by omega)
    · simp only [true_iff]
      exact pollRounds_converged_last env w h 1 4 hc
    · intro hex
      exact ⟨rfl, rfl⟩
    · intro habs
      cases habs
    · intro hall
      have := pollRounds_converged_last env w h 1 4 hc
      rw [hall _] at this
      cases this
  · rw [if_neg hc]
    dsimp only
    have hpoll : (pollRounds env w h 1 4).rounds +
        (pollRounds env w h (pollRounds env w h 1 4).next 4).rounds +
        (if hasX11 then 1 else 0) ≤ 9 := by
      have h1 := pollRounds_rounds_le env w h 1 4
      have h2 := pollRounds_rounds_le env w h (pollRounds env w h 1 4).next 4
      cases hasX11 <;> simp <;> omega
    refine ⟨hpoll, ?_, ?_, ?_, ?_⟩
    · by_cases hfin : obsConverged
        (env (pollRounds env w h (pollRounds env w h 1 4).next 4).next) w h = true
      · rw [if_pos hfin]
        exact iff_of_true rfl hfin
      · rw [if_neg hfin]
        exact iff_of_false (fun habs => nomatch habs) hfin
    · intro hex
      exact absurd (pollRounds_converged_of_exists env w h 1 4 hex) hc
    · intro _
      exact ⟨rfl, rfl, rfl⟩
    · intro hall
      rw [hall, if_neg (fun habs => nomatch habs)]

/-- Concrete instantiation of
`ensureFramebufferSize_bounded_budget_and_warning` on an environment that
converges immediately. -/
theorem ensureFramebufferSize_bounded_budget_and_warning_witness :
    (∃ j, j < 4 ∧
      obsConverged ((fun _ => ⟨1920, 1080, 1920, 1080⟩ : Nat → Obs) (1 + j))
        1920 1080 = true) ∧
    ((ensureFramebufferSize false 1920 1080
        (fun _ => ⟨1920, 1080, 1920, 1080⟩)).warning = none ∧
     (ensureFramebufferSize false 1920 1080
        (fun _ => ⟨1920, 1080, 1920, 1080⟩)).movedOffscreen = false) :=
  ⟨⟨0, by omega, by decide⟩,
    (ensureFramebufferSize_bounded_budget_and_warning false 1920 1080
      (fun _ => ⟨1920, 1080, 1920, 1080⟩)).2.2.1 ⟨0, by omega, by decide⟩⟩

theorem mem_freeResources_of_seg (res : X11Resources) (a : FreeAction)
    (hmem : a ∈ res.viewports.map FreeAction.deleteViewport ∨
      a ∈ windowLayerActs res.windowGCs res.windows res.display ∨
      a ∈ optAct FreeAction.destroyImage res.image ∨
      a ∈ guardedAct FreeAction.freeSharedGC res.gc res.display ∨
      a ∈ guardedAct FreeAction.freePixmap res.pixmap res.display ∨
      a ∈ optAct FreeAction.deleteImageData res.imageData ∨
      a ∈ optAct FreeAction.closeDisplay res.display) :
    a ∈ (freeResources res).2 := by
  show a ∈ _ ++ _ ++ _ ++ _ ++ _ ++ _ ++ _
  simp only [List.mem_append]
  tauto

/-- C9: the installed display-error handlers implement the two policies:
a non-fatal protocol error is only logged and the process continues (the
handler suppresses the default terminate-on-error behaviour, releasing
nothing); a fatal I/O error invokes `reset`, which releases every owned
resource (each live handle of every kind appears in the released list)
and re-runs topology discovery and surface allocation with the same
requested-output configuration, without terminating the process whenever
that rediscovery succeeds. -/
theorem errorHandlers_policies (fault : XFault) (envd : DisplayEnv)
    (requested : List String) (res : X11Resources) :
    (fault = .protocolError →
      (handleFault fault envd requested res).released = [] ∧
      (handleFault fault envd requested res).topology = none ∧
      (handleFault fault envd requested res).logged = true ∧
      (handleFault fault envd requested res).terminated = false) ∧
    (fault = .ioError →
      (handleFault fault envd requested res).released = (freeResources res).2 ∧
      (handleFault fault envd requested res).topology =
        some (loadScreenInfoTopology envd.rootW envd.rootH envd.detected requested) ∧
      (handleFault fault envd requested res).logged = true ∧
      (∀ r, loadScreenInfoTopology envd.rootW envd.rootH envd.detected requested =
        .ok r → (handleFault fault envd requested res).terminated = false) ∧
      (∀ vid, vid ∈ res.viewports →
        FreeAction.deleteViewport vid ∈ (handleFault fault envd requested res).released) ∧
      (∀ n gid, res.display ≠ none → (n, some gid) ∈ res.windowGCs →
        FreeAction.freeWindowGC gid ∈ (handleFault fault envd requested res).released) ∧
      (∀ n wid, res.display ≠ none → (n, some wid) ∈ res.windows →
        FreeAction.destroyWindow wid ∈ (handleFault fault envd requested res).released) ∧
      (∀ i, res.image = some i →
        FreeAction.destroyImage i ∈ (handleFault fault envd requested res).released) ∧
      (∀ g, res.display ≠ none → res.gc = some g →
        FreeAction.freeSharedGC g ∈ (handleFault fault envd requested res).released) ∧
      (∀ p, res.display ≠ none → res.pixmap = some p →
        FreeAction.freePixmap p ∈ (handleFault fault envd requested res).released) ∧
      (∀ b, res.imageData = some b →
        FreeAction.deleteImageData b ∈ (handleFault fault envd requested res).released) ∧
      (∀ d, res.display = some d →
        FreeAction.closeDisplay d ∈ (handleFault fault envd requested res).released)) := by
  constructor
  · rintro rfl
    exact ⟨rfl, rfl, rfl, rfl⟩
  · rintro rfl
    have hred : handleFault .ioError envd requested res =
        resetOutput envd requested res := rfl
    have houtcome :
        (resetOutput envd requested res).released = (freeResources res).2 ∧
        (resetOutput envd requested res).topology =
          some (loadScreenInfoTopology envd.rootW envd.rootH envd.detected requested) ∧
        (resetOutput envd requested res).logged = true ∧
        (∀ r, loadScreenInfoTopology envd.rootW envd.rootH envd.detected requested =
          .ok r → (resetOutput envd requested res).terminated = false) := by
      rw [resetOutput]
      cases htopo : loadScreenInfoTopology envd.rootW envd.rootH envd.detected
        requested with
      | ok r => exact ⟨rfl, rfl, rfl, fun _ _ => rfl⟩
      | error e => exact ⟨rfl, rfl, rfl, fun r hr => nomatch hr⟩
    rw [hred]
    obtain ⟨h1, h2, h3, h4⟩ := houtcome
    refine ⟨h1, h2, h3, h4, ?_, ?_, ?_, ?_, ?_, ?_, ?_, ?_⟩ <;> rw [h1]
    · intro vid hvid
      exact mem_freeResources_of_seg res _ (.inl (List.mem_map_of_mem _ hvid))
    · intro n gid hdisp hmem
      refine mem_freeResources_of_seg res _ (.inr (.inl ?_))
      cases hdd : res.display with
      | none => exact absurd hdd hdisp
      | some d =>
          rw [windowLayerActs]
          exact List.mem_append_left _
            (List.mem_filterMap.mpr ⟨(n, some gid), hmem, rfl⟩)
    · intro n wid hdisp hmem
      refine mem_freeResources_of_seg res _ (.inr (.inl ?_))
      cases hdd : res.display with
      | none => exact absurd hdd hdisp
      | some d =>
          rw [windowLayerActs]
          exact List.mem_append_right _
            (List.mem_filterMap.mpr ⟨(n, some wid), hmem, rfl⟩)
    · intro i himg
      refine mem_freeResources_of_seg res _ (.inr (.inr (.inl ?_)))
      rw [himg, optAct]
      exact List.mem_singleton_self _
    · intro g hdisp hgc
      refine mem_freeResources_of_seg res _ (.inr (.inr (.inr (.inl ?_))))
      cases hdd : res.display with
      | none => exact absurd hdd hdisp
      | some d =>
          rw [guardedAct, hgc, optAct]
          exact List.mem_singleton_self _
    · intro p hdisp hpix
      refine mem_freeResources_of_seg res _ (.inr (.inr (.inr (.inr (.inl ?_)))))
      cases hdd : res.display with
      | none => exact absurd hdd hdisp
      | some d =>
          rw [guardedAct, hpix, optAct]
          exact List.mem_singleton_self _
    · intro b hdat
      refine mem_freeResources_of_seg res _
        (.inr (.inr (.inr (.inr (.inr (.inl ?_))))))
      rw [hdat, optAct]
      exact List.mem_singleton_self _
    · intro d hdisp
      refine mem_freeResources_of_seg res _
        (.inr (.inr (.inr (.inr (.inr (.inr ?_))))))
      rw [hdisp, optAct]
      exact List.mem_singleton_self _

/-- Concrete instantiation of `errorHandlers_policies`: a protocol error
leaves the state alone and does not terminate; a fatal I/O error on a
live single-output session frees the display and does not terminate. -/
theorem errorHandlers_policies_witness :
    ((handleFault .protocolError ⟨1920, 1080, [⟨"DP-1", 0, 0, 1920, 1080⟩]⟩
        ["DP-1"] ⟨[], [], [], some 1, some 2, some 3, some 4, some 5⟩).released = [] ∧
     (handleFault .protocolError ⟨1920, 1080, [⟨"DP-1", 0, 0, 1920, 1080⟩]⟩
        ["DP-1"] ⟨[], [], [], some 1, some 2, some 3, some 4, some 5⟩).topology = none ∧
     (handleFault .protocolError ⟨1920, 1080, [⟨"DP-1", 0, 0, 1920, 1080⟩]⟩
        ["DP-1"] ⟨[], [], [], some 1, some 2, some 3, some 4, some 5⟩).logged = true ∧
     (handleFault .protocolError ⟨1920, 1080, [⟨"DP-1", 0, 0, 1920, 1080⟩]⟩
        ["DP-1"] ⟨[], [], [], some 1, some 2, some 3, some 4, some 5⟩).terminated = false) ∧
    (handleFault .ioError ⟨1920, 1080, [⟨"DP-1", 0, 0, 1920, 1080⟩]⟩
        ["DP-1"] ⟨[], [], [], some 1, some 2, some 3, some 4, some 5⟩).terminated = false ∧
    FreeAction.closeDisplay 1 ∈
      (handleFault .ioError ⟨1920, 1080, [⟨"DP-1", 0, 0, 1920, 1080⟩]⟩
        ["DP-1"] ⟨[], [], [], some 1, some 2, some 3, some 4, some 5⟩).released :=
  ⟨(errorHandlers_policies .protocolError ⟨1920, 1080, [⟨"DP-1", 0, 0, 1920, 1080⟩]⟩
      ["DP-1"] ⟨[], [], [], some 1, some 2, some 3, some 4, some 5⟩).1 rfl,
   (errorHandlers_policies .ioError ⟨1920, 1080, [⟨"DP-1", 0, 0, 1920, 1080⟩]⟩
      ["DP-1"] ⟨[], [], [], some 1, some 2, some 3, some 4, some 5⟩).2 rfl |>.2.2.2.1
     ⟨[⟨"DP-1", 0, 0, 1920, 1080⟩], [⟨"DP-1", 0, 0, 1920, 1080⟩], 0, 0, 1920, 1080⟩
     rfl,
   ((errorHandlers_policies .ioError ⟨1920, 1080, [⟨"DP-1", 0, 0, 1920, 1080⟩]⟩
      ["DP-1"] ⟨[], [], [], some 1, some 2, some 3, some 4, some 5⟩).2 rfl
     |>.2.2.2.2.2.2.2.2.2.2.2) 1 rfl⟩

/-- Scenario check from the spec: single 1920×1080 output "DP-1". -/
example :
    loadScreenInfoTopology 1920 1080 [⟨"DP-1", 0, 0, 1920, 1080⟩] ["DP-1"] =
      .ok ⟨[⟨"DP-1", 0, 0, 1920, 1080⟩], [⟨"DP-1", 0, 0, 1920, 1080⟩],
           0, 0, 1920, 1080⟩ := rfl

/-- Scenario check from the spec: two outputs side by side. -/
example :
    loadScreenInfoTopology 3200 1080
      [⟨"DP-1", 0, 0, 1920, 1080⟩, ⟨"HDMI-1", 1920, 0, 1280, 1024⟩]
      ["DP-1", "HDMI-1"] =
      .ok ⟨[⟨"DP-1", 0, 0, 1920, 1080⟩, ⟨"HDMI-1", 1920, 0, 1280, 1024⟩],
           [⟨"DP-1", 0, 0, 1920, 1080⟩, ⟨"HDMI-1", 1920, 0, 1280, 1024⟩],
           0, 0, 3200, 1080⟩ := rfl

end WallpaperEngine
